import Mathlib

/-!
Verification of the Swoosh cross-chain intent contracts: a shallow embedding
of the three Stylus contracts (IntentValidator, RouteExecutor,
SettlementVerifier) from src/contracts/src, with theorems settling the
behavioural claims about them. Addresses and U256 words are modelled as Nat
(the null address is 0; additions that can wrap take an explicit
mod 2 to the 256). Storage maps are total functions with the zero default of
EVM storage. Each public method is a function from the contract state and a
call environment (message sender, block timestamp) to a result paired with
the updated state; emitted events are accumulated in a log field.
-/

namespace Swoosh

/-- Word size of U256 storage slots: arithmetic on stored words wraps at this modulus. -/
def U256MOD : Nat := 2 ^ 256

/-- Call environment: message sender and block timestamp as seen by the VM. -/
structure Env where
  msg_sender : Nat
  block_timestamp : Nat
deriving DecidableEq

/-- Storage map write: StorageMap.setter(k).set(v) on a zero-defaulted map. -/
def setMap (m : Nat → Nat) (k v : Nat) : Nat → Nat :=
  fun x => if x = k then v else m x

/-! ## SettlementVerifier (src/contracts/src/settlement_verifier.rs) -/

/-- Settlement status enumeration from settlement_verifier.rs. -/
inductive SettlementStatus
  | Pending
  | Confirmed
  | Failed
  | Refunded
deriving DecidableEq

/-- Numeric discriminant of SettlementStatus, as stored in the settlements map. -/
def SettlementStatus.code : SettlementStatus → Nat
  | .Pending => 0
  | .Confirmed => 1
  | .Failed => 2
  | .Refunded => 3

/-- Error type of the SettlementVerifier contract (note: it has no InvalidAddress variant). -/
inductive SettlementVerifierError
  | Unauthorized
  | InvalidMessageId
  | InvalidIntentId
  | SettlementTimeout
  | AlreadyProcessed
  | RefundFailed
deriving DecidableEq

/-- Events emitted by SettlementVerifier (message ids modelled as Nat). -/
inductive SVEvent
  | SettlementConfirmed (intentId messageId timestamp : Nat)
  | SettlementFailed (intentId messageId : Nat) (reason : String)
  | RefundInitiated (intentId user token amount : Nat)
deriving DecidableEq

/-- Storage of the SettlementVerifier contract plus the emitted event log. -/
structure SettlementVerifier where
  owner : Nat
  route_executor : Nat
  ccip_router : Nat
  settlements : Nat → Nat
  settlement_timestamps : Nat → Nat
  timeout_period : Nat
  log : List SVEvent

/-- init: rejects a zero route executor or ccip router address (with Unauthorized),
otherwise records the caller as owner, stores both addresses and sets the
timeout period to 1800. -/
def SettlementVerifier.init (s : SettlementVerifier) (env : Env)
    (route_executor_address ccip_router_address : Nat) :
    Except SettlementVerifierError Unit × SettlementVerifier :=
  if route_executor_address = 0 ∨ ccip_router_address = 0 then
    (.error .Unauthorized, s)
  else
    (.ok (), { s with
      owner := env.msg_sender,
      route_executor := route_executor_address,
      ccip_router := ccip_router_address,
      timeout_period := 1800 })

/-- get_settlement_status: read of the settlements map (zero default). -/
def SettlementVerifier.get_settlement_status (s : SettlementVerifier) (intent_id : Nat) : Nat :=
  s.settlements intent_id

/-- get_settlement_timestamp: read of the settlement_timestamps map (zero default). -/
def SettlementVerifier.get_settlement_timestamp (s : SettlementVerifier) (intent_id : Nat) : Nat :=
  s.settlement_timestamps intent_id

/-- confirm_settlement: fails with InvalidIntentId on a zero id, otherwise
unconditionally writes Confirmed into the settlements map. -/
def SettlementVerifier.confirm_settlement (s : SettlementVerifier) (intent_id : Nat) :
    Except SettlementVerifierError Unit × SettlementVerifier :=
  if intent_id = 0 then
    (.error .InvalidIntentId, s)
  else
    (.ok (), { s with
      settlements := setMap s.settlements intent_id (SettlementStatus.code .Confirmed) })

/-- verify_ccip_message: router-only; rejects a zero id; rejects a non-Pending
settlement with AlreadyProcessed; otherwise records the block timestamp,
calls confirm_settlement and emits SettlementConfirmed. -/
def SettlementVerifier.verify_ccip_message (s : SettlementVerifier) (env : Env)
    (message_id intent_id : Nat) :
    Except SettlementVerifierError Bool × SettlementVerifier :=
  if env.msg_sender ≠ s.ccip_router then
    (.error .Unauthorized, s)
  else if intent_id = 0 then
    (.error .InvalidIntentId, s)
  else if s.get_settlement_status intent_id ≠ SettlementStatus.code .Pending then
    (.error .AlreadyProcessed, s)
  else
    let s1 : SettlementVerifier :=
      { s with settlement_timestamps :=
          setMap s.settlement_timestamps intent_id env.block_timestamp }
    match s1.confirm_settlement intent_id with
    | (.error e, s2) => (.error e, s2)
    | (.ok _, s2) =>
      (.ok true, { s2 with log := s2.log ++
        [SVEvent.SettlementConfirmed intent_id message_id env.block_timestamp] })

/-- initiate_refund: writes Refunded into the settlements map and emits RefundInitiated. -/
def SettlementVerifier.initiate_refund (s : SettlementVerifier)
    (intent_id user token amount : Nat) :
    Except SettlementVerifierError Unit × SettlementVerifier :=
  (.ok (), { s with
    settlements := setMap s.settlements intent_id (SettlementStatus.code .Refunded),
    log := s.log ++ [SVEvent.RefundInitiated intent_id user token amount] })

/-- handle_failure: callable by owner or route executor; rejects a zero id; if a
timestamp was recorded and the current time strictly exceeds timestamp plus
timeout (wrapping U256 addition), writes Failed, emits SettlementFailed and
calls initiate_refund; otherwise succeeds without touching state. -/
def SettlementVerifier.handle_failure (s : SettlementVerifier) (env : Env)
    (intent_id user token amount : Nat) (reason : String) :
    Except SettlementVerifierError Unit × SettlementVerifier :=
  if env.msg_sender ≠ s.owner ∧ env.msg_sender ≠ s.route_executor then
    (.error .Unauthorized, s)
  else if intent_id = 0 then
    (.error .InvalidIntentId, s)
  else
    let settlement_time := s.settlement_timestamps intent_id
    let current_time := env.block_timestamp
    let timeout := s.timeout_period
    if settlement_time ≠ 0 ∧ current_time > (settlement_time + timeout) % U256MOD then
      let s1 : SettlementVerifier :=
        { s with settlements := setMap s.settlements intent_id (SettlementStatus.code .Failed) }
      let s2 : SettlementVerifier :=
        { s1 with log := s1.log ++ [SVEvent.SettlementFailed intent_id 0 reason] }
      match s2.initiate_refund intent_id user token amount with
      | (.error e, s3) => (.error e, s3)
      | (.ok _, s3) => (.ok (), s3)
    else
      (.ok (), s)

/-- has_settlement_timed_out: false for an unrecorded timestamp, otherwise compares
current time against timestamp plus timeout (wrapping U256 addition). -/
def SettlementVerifier.has_settlement_timed_out (s : SettlementVerifier) (env : Env)
    (intent_id : Nat) : Bool :=
  let settlement_time := s.settlement_timestamps intent_id
  if settlement_time = 0 then false
  else decide (env.block_timestamp > (settlement_time + s.timeout_period) % U256MOD)

/-- set_timeout_period: owner-only write of the global timeout period. -/
def SettlementVerifier.set_timeout_period (s : SettlementVerifier) (env : Env)
    (new_timeout : Nat) :
    Except SettlementVerifierError Unit × SettlementVerifier :=
  if env.msg_sender ≠ s.owner then
    (.error .Unauthorized, s)
  else
    (.ok (), { s with timeout_period := new_timeout })

/-- Public calls of the SettlementVerifier contract. -/
inductive SVCall
  | initCall (route_executor_address ccip_router_address : Nat)
  | verifyCall (message_id intent_id : Nat)
  | confirmCall (intent_id : Nat)
  | handleFailureCall (intent_id user token amount : Nat) (reason : String)
  | setTimeoutCall (new_timeout : Nat)

/-- One public call of the SettlementVerifier, discarding the return value. -/
def svStep (s : SettlementVerifier) (env : Env) : SVCall → SettlementVerifier
  | .initCall r c => (s.init env r c).2
  | .verifyCall m i => (s.verify_ccip_message env m i).2
  | .confirmCall i => (s.confirm_settlement i).2
  | .handleFailureCall i u t a r => (s.handle_failure env i u t a r).2
  | .setTimeoutCall t => (s.set_timeout_period env t).2

/-- The all-zero storage a freshly deployed SettlementVerifier starts from. -/
def SVInitial : SettlementVerifier :=
  { owner := 0, route_executor := 0, ccip_router := 0,
    settlements := fun _ => 0, settlement_timestamps := fun _ => 0,
    timeout_period := 0, log := [] }

/-- States of the SettlementVerifier reachable by public calls from deployment. -/
inductive SVReachable : SettlementVerifier → Prop
  | base : SVReachable SVInitial
  | step (s : SettlementVerifier) (env : Env) (c : SVCall) :
      SVReachable s → SVReachable (svStep s env c)

/-! ## RouteExecutor (src/contracts/src/route_executor.rs) -/

/-- Intent status enumeration from route_executor.rs. -/
inductive IntentStatus
  | Pending
  | Executing
  | Completed
  | Failed
deriving DecidableEq

/-- Numeric discriminant of IntentStatus, as stored in the intent_statuses map. -/
def IntentStatus.code : IntentStatus → Nat
  | .Pending => 0
  | .Executing => 1
  | .Completed => 2
  | .Failed => 3

/-- Error type of the RouteExecutor contract. -/
inductive RouteExecutorError
  | Unauthorized
  | InvalidAddress
  | InvalidAmount
  | ValidationFailed
  | SwapFailed
  | BridgeFailed
  | ContractPaused
  | ReentrancyGuard
deriving DecidableEq

/-- Events emitted by RouteExecutor. -/
inductive REEvent
  | IntentExecuted (intentId user timestamp : Nat)
  | SwapExecuted (intentId tokenIn tokenOut amountIn amountOut : Nat)
  | BridgeInitiated (intentId token amount destinationChain recipient : Nat)
  | IntentFailed (intentId : Nat) (reason : String)
  | PausedEvent (caller : Nat)
  | UnpausedEvent (caller : Nat)
deriving DecidableEq

/-- Storage of the RouteExecutor contract plus the emitted event log. -/
structure RouteExecutor where
  owner : Nat
  validator : Nat
  ccip_router : Nat
  intent_counter : Nat
  intent_statuses : Nat → Nat
  paused : Bool
  locked : Bool
  log : List REEvent

/-- init: rejects a zero validator or ccip router address with InvalidAddress,
otherwise records the caller as owner, stores both addresses, zeroes the
intent counter and clears both guard flags. -/
def RouteExecutor.init (s : RouteExecutor) (env : Env)
    (validator_address ccip_router_address : Nat) :
    Except RouteExecutorError Unit × RouteExecutor :=
  if validator_address = 0 ∨ ccip_router_address = 0 then
    (.error .InvalidAddress, s)
  else
    (.ok (), { s with
      owner := env.msg_sender,
      validator := validator_address,
      ccip_router := ccip_router_address,
      intent_counter := 0,
      paused := false,
      locked := false })

/-- internal_execute_swap: pass-through swap step; emits SwapExecuted and
returns the unchanged amount (it never fails in this code). -/
def RouteExecutor.internal_execute_swap (s : RouteExecutor)
    (intent_id token_in amount : Nat) (_swap_data : List Nat) :
    Except RouteExecutorError Nat × RouteExecutor :=
  (.ok amount, { s with
    log := s.log ++ [REEvent.SwapExecuted intent_id token_in token_in amount amount] })

/-- internal_execute_bridge: emits BridgeInitiated (it never fails in this code). -/
def RouteExecutor.internal_execute_bridge (s : RouteExecutor)
    (intent_id token amount destination_chain recipient : Nat) :
    Except RouteExecutorError Unit × RouteExecutor :=
  (.ok (), { s with
    log := s.log ++ [REEvent.BridgeInitiated intent_id token amount destination_chain recipient] })

/-- execute_full_route: pause gate, reentrancy guard, inline address and amount
validation, Executing status write, optional swap step, bridge step, Completed
status write, counter advance, IntentExecuted event and lock release, in the
order of the source. -/
def RouteExecutor.execute_full_route (s : RouteExecutor) (env : Env)
    (token_in amount destination_chain recipient : Nat) (swap_data : List Nat) :
    Except RouteExecutorError Nat × RouteExecutor :=
  if s.paused then
    (.error .ContractPaused, s)
  else if s.locked then
    (.error .ReentrancyGuard, s)
  else
    let s1 : RouteExecutor := { s with locked := true }
    let user := env.msg_sender
    let intent_id := (s1.intent_counter + 1) % U256MOD
    if token_in = 0 ∨ recipient = 0 then
      (.error .InvalidAddress, { s1 with locked := false })
    else if amount = 0 then
      (.error .InvalidAmount, { s1 with locked := false })
    else
      let s2 : RouteExecutor := { s1 with
        intent_statuses := setMap s1.intent_statuses intent_id (IntentStatus.code .Executing) }
      match (if swap_data.length > 0 then
               s2.internal_execute_swap intent_id token_in amount swap_data
             else (.ok amount, s2)) with
      | (.error e, s3) => (.error e, s3)
      | (.ok final_amount, s3) =>
        match s3.internal_execute_bridge intent_id token_in final_amount
                destination_chain recipient with
        | (.error e, s4) => (.error e, s4)
        | (.ok _, s4) =>
          let s5 : RouteExecutor := { s4 with
            intent_statuses := setMap s4.intent_statuses intent_id (IntentStatus.code .Completed) }
          let s6 : RouteExecutor := { s5 with intent_counter := intent_id }
          let s7 : RouteExecutor := { s6 with
            log := s6.log ++ [REEvent.IntentExecuted intent_id user env.block_timestamp] }
          (.ok intent_id, { s7 with locked := false })

/-- get_intent_status: read of the intent_statuses map (zero default). -/
def RouteExecutor.get_intent_status (s : RouteExecutor) (intent_id : Nat) : Nat :=
  s.intent_statuses intent_id

/-- pause: owner-only; sets the paused flag and emits a Paused event. -/
def RouteExecutor.pause (s : RouteExecutor) (env : Env) :
    Except RouteExecutorError Unit × RouteExecutor :=
  if env.msg_sender ≠ s.owner then
    (.error .Unauthorized, s)
  else
    (.ok (), { s with paused := true, log := s.log ++ [REEvent.PausedEvent env.msg_sender] })

/-- unpause: owner-only; clears the paused flag and emits an Unpaused event. -/
def RouteExecutor.unpause (s : RouteExecutor) (env : Env) :
    Except RouteExecutorError Unit × RouteExecutor :=
  if env.msg_sender ≠ s.owner then
    (.error .Unauthorized, s)
  else
    (.ok (), { s with paused := false, log := s.log ++ [REEvent.UnpausedEvent env.msg_sender] })

/-- Public state-mutating calls of the RouteExecutor contract. -/
inductive RECall
  | initCall (validator_address ccip_router_address : Nat)
  | executeCall (token_in amount destination_chain recipient : Nat) (swap_data : List Nat)
  | pauseCall
  | unpauseCall

/-- One public call of the RouteExecutor, discarding the return value. -/
def reStep (s : RouteExecutor) (env : Env) : RECall → RouteExecutor
  | .initCall v c => (s.init env v c).2
  | .executeCall t a d r sd => (s.execute_full_route env t a d r sd).2
  | .pauseCall => (s.pause env).2
  | .unpauseCall => (s.unpause env).2

/-- The all-zero storage a freshly deployed RouteExecutor starts from. -/
def REInitial : RouteExecutor :=
  { owner := 0, validator := 0, ccip_router := 0, intent_counter := 0,
    intent_statuses := fun _ => 0, paused := false, locked := false, log := [] }

/-- States of the RouteExecutor reachable by public calls from deployment. -/
inductive REReachable : RouteExecutor → Prop
  | base : REReachable REInitial
  | step (s : RouteExecutor) (env : Env) (c : RECall) :
      REReachable s → REReachable (reStep s env c)

/-! ## IntentValidator (src/contracts/src/intent_validator.rs) -/

/-- Error type of the IntentValidator contract. -/
inductive IntentValidatorError
  | Unauthorized
  | InvalidAddress
  | InvalidAmount
  | UnsupportedChain
  | UnsupportedToken
  | InsufficientBalance
  | InsufficientAllowance
deriving DecidableEq

/-- Storage of the IntentValidator contract: owner and the two allow-lists. -/
structure IntentValidator where
  owner : Nat
  supported_chains : Nat → Bool
  supported_tokens : Nat → Bool

/-- is_chain_supported: read of the supported_chains allow-list. -/
def IntentValidator.is_chain_supported (s : IntentValidator) (chain_id : Nat) : Bool :=
  s.supported_chains chain_id

/-- is_token_supported: read of the supported_tokens allow-list. -/
def IntentValidator.is_token_supported (s : IntentValidator) (token : Nat) : Bool :=
  s.supported_tokens token

/-- validate_intent: the short-circuit validation chain of intent_validator.rs.
The external ERC20 balance_of and allowance reads are passed in as oracle
functions balanceOf (token, account) and allowanceOf (token, owner, spender). -/
def IntentValidator.validate_intent (s : IntentValidator)
    (balanceOf : Nat → Nat → Nat) (allowanceOf : Nat → Nat → Nat → Nat)
    (user token amount destination_chain spender : Nat) :
    Except IntentValidatorError Bool :=
  if amount = 0 then
    .error .InvalidAmount
  else if user = 0 ∨ token = 0 ∨ spender = 0 then
    .error .InvalidAddress
  else if ¬ s.is_chain_supported destination_chain then
    .error .UnsupportedChain
  else if ¬ s.is_token_supported token then
    .error .UnsupportedToken
  else if balanceOf token user < amount then
    .error .InsufficientBalance
  else if allowanceOf token user spender < amount then
    .error .InsufficientAllowance
  else
    .ok true

/-! ## Claim C1 -/

/-- Deployment environment of the demo run: sender 1 at time 0. -/
def svEnvDeploy : Env := { msg_sender := 1, block_timestamp := 0 }

/-- Router environment of the demo run: sender 3 at time 100. -/
def svEnvRouter : Env := { msg_sender := 3, block_timestamp := 100 }

/-- Owner environment of the demo run, after the timeout: sender 1 at time 1901. -/
def svEnvOwnerLate : Env := { msg_sender := 1, block_timestamp := 1901 }

/-- Demo state 1: SVInitial after init(2, 3) by sender 1. -/
def svDemo1 : SettlementVerifier := svStep SVInitial svEnvDeploy (SVCall.initCall 2 3)

/-- Demo state 2: svDemo1 after verify_ccip_message(7, 1) by the router at time 100. -/
def svDemo2 : SettlementVerifier := svStep svDemo1 svEnvRouter (SVCall.verifyCall 7 1)

/-- Demo state 3: svDemo2 after handle_failure(1, 9, 8, 50) by the owner at time 1901. -/
def svDemo3 : SettlementVerifier :=
  svStep svDemo2 svEnvOwnerLate (SVCall.handleFailureCall 1 9 8 50 "timeout")

/-- Claim C1 (counterexample): in a reachable state where settlement 1 is
Confirmed and its recorded timestamp is 100, a handle_failure call by the
owner at time 1901 (past the 1800 timeout) moves the status of settlement 1
from Confirmed to Refunded, so a public call does change a status away from
Confirmed: handle_failure never inspects the current status. -/
theorem C1_confirmed_not_terminal_counterexample :
    SVReachable svDemo2
    ∧ svDemo2.settlements 1 = SettlementStatus.code SettlementStatus.Confirmed
    ∧ svDemo3 = svStep svDemo2 svEnvOwnerLate (SVCall.handleFailureCall 1 9 8 50 "timeout")
    ∧ svDemo3.settlements 1 = SettlementStatus.code SettlementStatus.Refunded
    ∧ SettlementStatus.code SettlementStatus.Refunded ≠
        SettlementStatus.code SettlementStatus.Confirmed := by
  refine ⟨?_, by decide, rfl, by decide, by decide⟩
  exact SVReachable.step _ _ _ (SVReachable.step _ _ _ SVReachable.base)

/-- Claim C1 (amended): across every state and every public call of the
SettlementVerifier, a single call leaves a settlement status unchanged, sets
it to Confirmed, or sets it to Refunded (the Failed write of handle_failure
is immediately overwritten by the refund step within the same call). In
particular Pending to Confirmed, Pending to Failed to Refunded are realized,
but Confirmed is not terminal: a timed-out handle_failure refunds it, and
confirm_settlement sets Confirmed from any prior status. -/
theorem C1_amended_single_call_status_transitions
    (s : SettlementVerifier) (env : Env) (c : SVCall) (id : Nat) :
    (svStep s env c).settlements id = s.settlements id
    ∨ (svStep s env c).settlements id = SettlementStatus.code SettlementStatus.Confirmed
    ∨ (svStep s env c).settlements id = SettlementStatus.code SettlementStatus.Refunded := by
  cases c with
  | initCall r c0 =>
      simp only [svStep, SettlementVerifier.init]
      split <;> simp
  | verifyCall m i =>
      simp only [svStep, SettlementVerifier.verify_ccip_message,
        SettlementVerifier.confirm_settlement]
      split_ifs <;> simp [setMap] <;>
        rcases eq_or_ne id i with h | h <;> simp [h]
  | confirmCall i =>
      simp only [svStep, SettlementVerifier.confirm_settlement]
      split_ifs <;> simp [setMap] <;>
        rcases eq_or_ne id i with h | h <;> simp [h]
  | handleFailureCall i u t a r =>
      simp only [svStep, SettlementVerifier.handle_failure,
        SettlementVerifier.initiate_refund]
      split_ifs <;> simp [setMap] <;>
        rcases eq_or_ne id i with h | h <;> simp [h]
  | setTimeoutCall t =>
      simp only [svStep, SettlementVerifier.set_timeout_period]
      split <;> simp

/-! ## Claim C2 -/

/-- Claim C2: for an authorized caller and a non-zero intent id with recorded
timestamp T and timeout period P (no U256 wrap): handle_failure at any time
at most T plus P returns success and changes no state; at time T plus P plus 1
it ends with status Refunded and appends the SettlementFailed notification
followed by the RefundInitiated record, the Failed write having happened in
between; and with a zero recorded timestamp it returns success with no state
change at any time. -/
theorem C2_handle_failure_timeout_boundary (s : SettlementVerifier) (env : Env)
    (intent_id user token amount : Nat) (reason : String)
    (hauth : env.msg_sender = s.owner ∨ env.msg_sender = s.route_executor)
    (hid : intent_id ≠ 0) :
    (s.settlement_timestamps intent_id ≠ 0 →
      s.settlement_timestamps intent_id + s.timeout_period < U256MOD →
      env.block_timestamp ≤ s.settlement_timestamps intent_id + s.timeout_period →
      s.handle_failure env intent_id user token amount reason = (.ok (), s))
    ∧ (s.settlement_timestamps intent_id ≠ 0 →
      s.settlement_timestamps intent_id + s.timeout_period + 1 < U256MOD →
      env.block_timestamp = s.settlement_timestamps intent_id + s.timeout_period + 1 →
      (s.handle_failure env intent_id user token amount reason).1 = .ok ()
      ∧ ((s.handle_failure env intent_id user token amount reason).2).settlements intent_id
          = SettlementStatus.code SettlementStatus.Refunded
      ∧ ((s.handle_failure env intent_id user token amount reason).2).log
          = s.log ++ [SVEvent.SettlementFailed intent_id 0 reason,
                      SVEvent.RefundInitiated intent_id user token amount])
    ∧ (s.settlement_timestamps intent_id = 0 →
      s.handle_failure env intent_id user token amount reason = (.ok (), s)) := by
  have hauth2 : ¬ (env.msg_sender ≠ s.owner ∧ env.msg_sender ≠ s.route_executor) := by
    rcases hauth with h | h <;> simp [h]
  refine ⟨?_, ?_, ?_⟩
  · intro hT hnw hle
    have hmod : (s.settlement_timestamps intent_id + s.timeout_period) % U256MOD
        = s.settlement_timestamps intent_id + s.timeout_period := Nat.mod_eq_of_lt hnw
    simp only [SettlementVerifier.handle_failure, hmod]
    rw [if_neg hauth2, if_neg hid]
    simp only [if_neg (by simp [Nat.not_lt.mpr hle] : ¬ (s.settlement_timestamps intent_id ≠ 0 ∧
      env.block_timestamp > s.settlement_timestamps intent_id + s.timeout_period))]
  · intro hT hnw heq
    have hnw2 : s.settlement_timestamps intent_id + s.timeout_period < U256MOD :=
      Nat.lt_of_succ_lt hnw
    have hmod : (s.settlement_timestamps intent_id + s.timeout_period) % U256MOD
        = s.settlement_timestamps intent_id + s.timeout_period := Nat.mod_eq_of_lt hnw2
    have hgt : env.block_timestamp > s.settlement_timestamps intent_id + s.timeout_period := by
      rw [heq]; exact Nat.lt_succ_self _
    simp only [SettlementVerifier.handle_failure, SettlementVerifier.initiate_refund, hmod]
    rw [if_neg hauth2, if_neg hid, if_pos ⟨hT, hgt⟩]
    refine ⟨rfl, by simp [setMap], by simp⟩
  · intro hT
    simp only [SettlementVerifier.handle_failure]
    rw [if_neg hauth2, if_neg hid]
    simp [hT]

/-- Concrete SettlementVerifier state used by the C2 witness: owner 1, route
executor 2, router 3, settlement 5 recorded at time 100, timeout 1800. -/
def svC2state : SettlementVerifier :=
  { owner := 1, route_executor := 2, ccip_router := 3,
    settlements := fun _ => 0,
    settlement_timestamps := setMap (fun _ => 0) 5 100,
    timeout_period := 1800, log := [] }

/-- Witness for C2: with timestamp 100 and timeout 1800, a handle_failure call
by the owner at time 1900 (exactly T plus P) is a no-op success, and at time
1901 it ends Refunded with the two notifications appended. -/
theorem C2_handle_failure_timeout_boundary_witness :
    svC2state.handle_failure { msg_sender := 1, block_timestamp := 1900 } 5 9 8 50 "late"
      = (.ok (), svC2state)
    ∧ (svC2state.handle_failure { msg_sender := 1, block_timestamp := 1901 } 5 9 8 50 "late").1
      = .ok ()
    ∧ ((svC2state.handle_failure { msg_sender := 1, block_timestamp := 1901 } 5 9 8 50 "late").2).settlements 5
      = SettlementStatus.code SettlementStatus.Refunded := by
  have h1 := C2_handle_failure_timeout_boundary svC2state
    { msg_sender := 1, block_timestamp := 1900 } 5 9 8 50 "late" (Or.inl rfl) (by decide)
  have h2 := C2_handle_failure_timeout_boundary svC2state
    { msg_sender := 1, block_timestamp := 1901 } 5 9 8 50 "late" (Or.inl rfl) (by decide)
  refine ⟨h1.1 (by decide) (by decide) (by decide), ?_, ?_⟩
  · exact (h2.2.1 (by decide) (by decide) (by decide)).1
  · exact (h2.2.1 (by decide) (by decide) (by decide)).2.1

/-! ## Claim C5 -/

/-- Claim C5: verify_ccip_message succeeds at most once per intent id. A caller
other than the stored router gets Unauthorized with no state change; the
router with a zero id gets InvalidIntentId; the router with a non-Pending
settlement gets AlreadyProcessed; and from Pending the router call returns
true, records the block timestamp and sets the status to Confirmed, after
which a second router call for the same id fails with AlreadyProcessed and
changes nothing. -/
theorem C5_verify_at_most_once (s : SettlementVerifier) (env env2 : Env)
    (message_id message_id2 intent_id : Nat) :
    (env.msg_sender ≠ s.ccip_router →
      s.verify_ccip_message env message_id intent_id = (.error .Unauthorized, s))
    ∧ (env.msg_sender = s.ccip_router → intent_id = 0 →
      s.verify_ccip_message env message_id intent_id = (.error .InvalidIntentId, s))
    ∧ (env.msg_sender = s.ccip_router → intent_id ≠ 0 →
      s.settlements intent_id ≠ SettlementStatus.code SettlementStatus.Pending →
      s.verify_ccip_message env message_id intent_id = (.error .AlreadyProcessed, s))
    ∧ (env.msg_sender = s.ccip_router → intent_id ≠ 0 →
      s.settlements intent_id = SettlementStatus.code SettlementStatus.Pending →
      (s.verify_ccip_message env message_id intent_id).1 = .ok true
      ∧ ((s.verify_ccip_message env message_id intent_id).2).settlements intent_id
          = SettlementStatus.code SettlementStatus.Confirmed
      ∧ ((s.verify_ccip_message env message_id intent_id).2).settlement_timestamps intent_id
          = env.block_timestamp
      ∧ (env2.msg_sender = s.ccip_router →
          ((s.verify_ccip_message env message_id intent_id).2).verify_ccip_message
              env2 message_id2 intent_id
            = (.error .AlreadyProcessed, (s.verify_ccip_message env message_id intent_id).2))) := by
  refine ⟨?_, ?_, ?_, ?_⟩
  · intro h
    simp only [SettlementVerifier.verify_ccip_message]
    rw [if_pos h]
  · intro h h0
    simp only [SettlementVerifier.verify_ccip_message]
    rw [if_neg (by simp [h]), if_pos h0]
  · intro h h0 hst
    simp only [SettlementVerifier.verify_ccip_message,
      SettlementVerifier.get_settlement_status]
    rw [if_neg (by simp [h]), if_neg h0, if_pos hst]
  · intro h h0 hst
    have hred : s.verify_ccip_message env message_id intent_id
        = (.ok true,
            { s with
              settlement_timestamps := setMap s.settlement_timestamps intent_id env.block_timestamp,
              settlements := setMap s.settlements intent_id
                (SettlementStatus.code SettlementStatus.Confirmed),
              log := s.log ++
                [SVEvent.SettlementConfirmed intent_id message_id env.block_timestamp] }) := by
      simp only [SettlementVerifier.verify_ccip_message,
        SettlementVerifier.get_settlement_status, SettlementVerifier.confirm_settlement]
      rw [if_neg (by simp [h]), if_neg h0, if_neg (by simp [hst]), if_neg h0]
    refine ⟨by rw [hred], by rw [hred]; simp [setMap], by rw [hred]; simp [setMap], ?_⟩
    intro h2
    rw [hred]
    simp only [SettlementVerifier.verify_ccip_message,
      SettlementVerifier.get_settlement_status]
    rw [if_neg (by simp [h2]), if_neg h0,
      if_pos (by simp [setMap, SettlementStatus.code])]

/-- Concrete SettlementVerifier state used by the C5 witness: router 3,
settlement 4 already Confirmed, settlement 5 Pending. -/
def svC5state : SettlementVerifier :=
  { owner := 1, route_executor := 2, ccip_router := 3,
    settlements := setMap (fun _ => 0) 4 1,
    settlement_timestamps := fun _ => 0,
    timeout_period := 1800, log := [] }

/-- Witness for C5: on svC5state, a non-router caller gets Unauthorized, the
router with id 0 gets InvalidIntentId, the router on the Confirmed settlement
4 gets AlreadyProcessed, and on the Pending settlement 5 the router call
returns true, sets Confirmed, records time 77, and a repeat router call
fails with AlreadyProcessed without changing state. -/
theorem C5_verify_at_most_once_witness :
    svC5state.verify_ccip_message { msg_sender := 9, block_timestamp := 77 } 11 5
      = (.error .Unauthorized, svC5state)
    ∧ svC5state.verify_ccip_message { msg_sender := 3, block_timestamp := 77 } 11 0
      = (.error .InvalidIntentId, svC5state)
    ∧ svC5state.verify_ccip_message { msg_sender := 3, block_timestamp := 77 } 11 4
      = (.error .AlreadyProcessed, svC5state)
    ∧ (svC5state.verify_ccip_message { msg_sender := 3, block_timestamp := 77 } 11 5).1 = .ok true
    ∧ ((svC5state.verify_ccip_message { msg_sender := 3, block_timestamp := 77 } 11 5).2).settlements 5
      = SettlementStatus.code SettlementStatus.Confirmed
    ∧ ((svC5state.verify_ccip_message { msg_sender := 3, block_timestamp := 77 } 11 5).2).settlement_timestamps 5
      = 77
    ∧ ((svC5state.verify_ccip_message { msg_sender := 3, block_timestamp := 77 } 11 5).2).verify_ccip_message
        { msg_sender := 3, block_timestamp := 99 } 12 5
      = (.error .AlreadyProcessed,
         (svC5state.verify_ccip_message { msg_sender := 3, block_timestamp := 77 } 11 5).2) := by
  have hnonrouter := C5_verify_at_most_once svC5state
    { msg_sender := 9, block_timestamp := 77 } { msg_sender := 3, block_timestamp := 99 } 11 12 5
  have hzero := C5_verify_at_most_once svC5state
    { msg_sender := 3, block_timestamp := 77 } { msg_sender := 3, block_timestamp := 99 } 11 12 0
  have hconf := C5_verify_at_most_once svC5state
    { msg_sender := 3, block_timestamp := 77 } { msg_sender := 3, block_timestamp := 99 } 11 12 4
  have hpend := C5_verify_at_most_once svC5state
    { msg_sender := 3, block_timestamp := 77 } { msg_sender := 3, block_timestamp := 99 } 11 12 5
  refine ⟨hnonrouter.1 (by decide), hzero.2.1 rfl rfl, hconf.2.2.1 rfl (by decide) (by decide),
    ?_, ?_, ?_, ?_⟩
  · exact (hpend.2.2.2 rfl (by decide) (by decide)).1
  · exact (hpend.2.2.2 rfl (by decide) (by decide)).2.1
  · exact (hpend.2.2.2 rfl (by decide) (by decide)).2.2.1
  · exact (hpend.2.2.2 rfl (by decide) (by decide)).2.2.2 rfl

/-! ## Claim C8 -/

/-- Claim C8: confirm_settlement fails with InvalidIntentId exactly on a zero
intent id, with no state change; on every non-zero id it succeeds and the
resulting state differs only in that the settlements map now carries
Confirmed at that id, regardless of the prior status. -/
theorem C8_confirm_settlement_unconditional (s : SettlementVerifier) (intent_id : Nat) :
    (intent_id = 0 → s.confirm_settlement intent_id = (.error .InvalidIntentId, s))
    ∧ (intent_id ≠ 0 →
      s.confirm_settlement intent_id =
        (.ok (),
          { s with
            settlements := setMap s.settlements intent_id
              (SettlementStatus.code SettlementStatus.Confirmed) })) := by
  constructor
  · intro h
    simp only [SettlementVerifier.confirm_settlement]
    rw [if_pos h]
  · intro h
    simp only [SettlementVerifier.confirm_settlement]
    rw [if_neg h]

/-- Witness for C8: on svC5state (settlement 4 Confirmed, settlement 6
Pending, settlement 0 untouched), confirm_settlement rejects id 0 and sets
id 6 to Confirmed. -/
theorem C8_confirm_settlement_unconditional_witness :
    svC5state.confirm_settlement 0 = (.error .InvalidIntentId, svC5state)
    ∧ (svC5state.confirm_settlement 6).1 = .ok ()
    ∧ ((svC5state.confirm_settlement 6).2).settlements 6
      = SettlementStatus.code SettlementStatus.Confirmed := by
  have h0 := C8_confirm_settlement_unconditional svC5state 0
  have h6 := C8_confirm_settlement_unconditional svC5state 6
  refine ⟨h0.1 rfl, ?_, ?_⟩
  · rw [h6.2 (by decide)]
  · rw [h6.2 (by decide)]
    simp [setMap]

/-! ## RouteExecutor path lemmas -/

/-- Paused contract: execute_full_route fails with ContractPaused, state untouched. -/
lemma execute_paused (s : RouteExecutor) (env : Env) (t a c r : Nat) (sd : List Nat)
    (hp : s.paused = true) :
    s.execute_full_route env t a c r sd = (.error .ContractPaused, s) := by
  simp [RouteExecutor.execute_full_route, hp]

/-- Held lock: execute_full_route fails with ReentrancyGuard, state untouched. -/
lemma execute_locked (s : RouteExecutor) (env : Env) (t a c r : Nat) (sd : List Nat)
    (hp : s.paused = false) (hl : s.locked = true) :
    s.execute_full_route env t a c r sd = (.error .ReentrancyGuard, s) := by
  simp [RouteExecutor.execute_full_route, hp, hl]

/-- Null token or recipient: execute_full_route fails with InvalidAddress and the
lock toggle leaves the state exactly as at entry. -/
lemma execute_invalid_address (s : RouteExecutor) (env : Env) (t a c r : Nat) (sd : List Nat)
    (hp : s.paused = false) (hl : s.locked = false) (ht : t = 0 ∨ r = 0) :
    s.execute_full_route env t a c r sd = (.error .InvalidAddress, s) := by
  cases s with
  | mk o v cc ic st p l lg =>
    simp only at hp hl
    subst hp; subst hl
    simp [RouteExecutor.execute_full_route, ht]

/-- Zero amount: execute_full_route fails with InvalidAmount and the lock toggle
leaves the state exactly as at entry. -/
lemma execute_invalid_amount (s : RouteExecutor) (env : Env) (t a c r : Nat) (sd : List Nat)
    (hp : s.paused = false) (hl : s.locked = false) (ht : ¬ (t = 0 ∨ r = 0)) (ha : a = 0) :
    s.execute_full_route env t a c r sd = (.error .InvalidAmount, s) := by
  cases s with
  | mk o v cc ic st p l lg =>
    simp only at hp hl
    subst hp; subst hl
    simp [RouteExecutor.execute_full_route, ht, ha]

/-- Successful execute_full_route: returns the next counter value as the intent id,
stores Executing then Completed for it, advances the counter, logs the optional
swap record, the bridge record and the completion record, and releases the lock. -/
lemma execute_success (s : RouteExecutor) (env : Env) (t a c r : Nat) (sd : List Nat)
    (hp : s.paused = false) (hl : s.locked = false) (ht : t ≠ 0) (hr : r ≠ 0) (ha : a ≠ 0) :
    s.execute_full_route env t a c r sd =
      (.ok ((s.intent_counter + 1) % U256MOD),
       { s with
         intent_statuses := setMap
           (setMap s.intent_statuses ((s.intent_counter + 1) % U256MOD)
             (IntentStatus.code .Executing))
           ((s.intent_counter + 1) % U256MOD) (IntentStatus.code .Completed),
         intent_counter := (s.intent_counter + 1) % U256MOD,
         locked := false,
         log := s.log
           ++ (if sd.length > 0 then
                 [REEvent.SwapExecuted ((s.intent_counter + 1) % U256MOD) t t a a]
               else [])
           ++ [REEvent.BridgeInitiated ((s.intent_counter + 1) % U256MOD) t a c r]
           ++ [REEvent.IntentExecuted ((s.intent_counter + 1) % U256MOD)
                 env.msg_sender env.block_timestamp] }) := by
  cases s with
  | mk o v cc ic st p l lg =>
    simp only at hp hl
    subst hp; subst hl
    by_cases hsd : sd.length > 0 <;>
      simp [RouteExecutor.execute_full_route, RouteExecutor.internal_execute_swap,
        RouteExecutor.internal_execute_bridge, ht, hr, ha, hsd]

/-- Any successful execute_full_route returns the advanced counter value and
stores it as the new counter. -/
lemma execute_ok_inv (s : RouteExecutor) (env : Env) (t a c r : Nat) (sd : List Nat) (n : Nat)
    (h : (s.execute_full_route env t a c r sd).1 = .ok n) :
    n = (s.intent_counter + 1) % U256MOD
    ∧ ((s.execute_full_route env t a c r sd).2).intent_counter = n := by
  cases hp : s.paused with
  | true => rw [execute_paused s env t a c r sd hp] at h; exact absurd h (by simp)
  | false =>
    cases hl : s.locked with
    | true => rw [execute_locked s env t a c r sd hp hl] at h; exact absurd h (by simp)
    | false =>
      by_cases ht : t = 0 ∨ r = 0
      · rw [execute_invalid_address s env t a c r sd hp hl ht] at h
        exact absurd h (by simp)
      · by_cases ha : a = 0
        · rw [execute_invalid_amount s env t a c r sd hp hl ht ha] at h
          exact absurd h (by simp)
        · push_neg at ht
          rw [execute_success s env t a c r sd hp hl ht.1 ht.2 ha] at h ⊢
          simp at h
          simp [h]

/-- Any failing execute_full_route leaves the whole state, in particular the
intent counter, exactly as at entry. -/
lemma execute_err_inv (s : RouteExecutor) (env : Env) (t a c r : Nat) (sd : List Nat)
    (e : RouteExecutorError)
    (h : (s.execute_full_route env t a c r sd).1 = .error e) :
    (s.execute_full_route env t a c r sd).2 = s := by
  cases hp : s.paused with
  | true => rw [execute_paused s env t a c r sd hp]
  | false =>
    cases hl : s.locked with
    | true => rw [execute_locked s env t a c r sd hp hl]
    | false =>
      by_cases ht : t = 0 ∨ r = 0
      · rw [execute_invalid_address s env t a c r sd hp hl ht]
      · by_cases ha : a = 0
        · rw [execute_invalid_amount s env t a c r sd hp hl ht ha]
        · push_neg at ht
          rw [execute_success s env t a c r sd hp hl ht.1 ht.2 ha] at h
          exact absurd h (by simp)

/-! ## Claim C3 -/

/-- Claim C3: whenever the lock is not held at entry, execute_full_route returns
with the lock flag false again on every exit path (success, ContractPaused,
InvalidAddress, InvalidAmount, and the never-taken SwapFailed and BridgeFailed
paths are covered by the universal quantification); and a call while the lock
is held by an in-flight outer call (so the pause flag it passed is still
false) fails with ReentrancyGuard and changes no state at all. -/
theorem C3_reentrancy_lock_released (s : RouteExecutor) (env : Env)
    (token_in amount destination_chain recipient : Nat) (swap_data : List Nat) :
    (s.locked = false →
      ((s.execute_full_route env token_in amount destination_chain recipient swap_data).2).locked
        = false)
    ∧ (s.locked = true → s.paused = false →
      s.execute_full_route env token_in amount destination_chain recipient swap_data
        = (.error .ReentrancyGuard, s)) := by
  constructor
  · intro hl
    cases hp : s.paused with
    | true =>
        rw [execute_paused s env token_in amount destination_chain recipient swap_data hp]
        exact hl
    | false =>
      by_cases ht : token_in = 0 ∨ recipient = 0
      · rw [execute_invalid_address s env token_in amount destination_chain recipient
          swap_data hp hl ht]
        exact hl
      · by_cases ha : amount = 0
        · rw [execute_invalid_amount s env token_in amount destination_chain recipient
            swap_data hp hl ht ha]
          exact hl
        · push_neg at ht
          rw [execute_success s env token_in amount destination_chain recipient
            swap_data hp hl ht.1 ht.2 ha]
  · intro hl hp
    exact execute_locked s env token_in amount destination_chain recipient swap_data hp hl

/-- Witness for C3: on the fresh executor the lock is free and ends free after a
successful call, and on a locked variant of the fresh executor the call fails
with ReentrancyGuard leaving the state untouched. -/
theorem C3_reentrancy_lock_released_witness :
    ((REInitial.execute_full_route { msg_sender := 4, block_timestamp := 10 } 2 50 42161 3 []).2).locked
      = false
    ∧ ({ REInitial with locked := true } : RouteExecutor).execute_full_route
        { msg_sender := 4, block_timestamp := 10 } 2 50 42161 3 []
      = (.error .ReentrancyGuard, { REInitial with locked := true }) := by
  constructor
  · exact (C3_reentrancy_lock_released REInitial { msg_sender := 4, block_timestamp := 10 }
      2 50 42161 3 []).1 rfl
  · exact (C3_reentrancy_lock_released ({ REInitial with locked := true })
      { msg_sender := 4, block_timestamp := 10 } 2 50 42161 3 []).2 rfl rfl

/-! ## Claim C4 -/

/-- Claim C4: intent ids are allocated monotonically and only on success. On a
freshly initialized executor (counter zero) a successful execute_full_route
returns id 1; a successful call returning n followed by another successful
call on the resulting state returns n plus 1 (absent U256 wrap); and every
failing call leaves the intent counter unchanged. -/
theorem C4_monotonic_intent_ids (s : RouteExecutor) (env env2 : Env)
    (t a c r t2 a2 c2 r2 : Nat) (sd sd2 : List Nat) (n m : Nat) :
    ((s.execute_full_route env t a c r sd).1 = .ok n → s.intent_counter = 0 → n = 1)
    ∧ ((s.execute_full_route env t a c r sd).1 = .ok n →
      (((s.execute_full_route env t a c r sd).2).execute_full_route env2 t2 a2 c2 r2 sd2).1
        = .ok m →
      n + 1 < U256MOD → m = n + 1)
    ∧ (∀ e, (s.execute_full_route env t a c r sd).1 = .error e →
      ((s.execute_full_route env t a c r sd).2).intent_counter = s.intent_counter) := by
  refine ⟨?_, ?_, ?_⟩
  · intro h h0
    have h1 := (execute_ok_inv s env t a c r sd n h).1
    rw [h0] at h1
    rw [h1]
    exact Nat.mod_eq_of_lt (by norm_num [U256MOD])
  · intro h h2 hlt
    have h1 := (execute_ok_inv s env t a c r sd n h).2
    have h3 := (execute_ok_inv ((s.execute_full_route env t a c r sd).2)
      env2 t2 a2 c2 r2 sd2 m h2).1
    rw [h1] at h3
    rw [h3]
    exact Nat.mod_eq_of_lt hlt
  · intro e h
    rw [execute_err_inv s env t a c r sd e h]

/-- Witness for C4: on the fresh executor, the first successful call yields id 1,
the second successful call yields the successor id, and a failing zero-amount
call leaves the counter unchanged. -/
theorem C4_monotonic_intent_ids_witness :
    (REInitial.execute_full_route { msg_sender := 4, block_timestamp := 10 } 2 50 42161 3 []).1
      = .ok 1
    ∧ (2 : Nat) = 1 + 1
    ∧ ((REInitial.execute_full_route { msg_sender := 4, block_timestamp := 10 } 2 0 42161 3 []).2).intent_counter
      = REInitial.intent_counter := by
  have hok1 : (REInitial.execute_full_route
      { msg_sender := 4, block_timestamp := 10 } 2 50 42161 3 []).1 = .ok 1 := by
    rw [execute_success REInitial { msg_sender := 4, block_timestamp := 10 } 2 50 42161 3 []
      rfl rfl (by decide) (by decide) (by decide)]
    norm_num [REInitial, U256MOD]
  have hok2 : (((REInitial.execute_full_route
      { msg_sender := 4, block_timestamp := 10 } 2 50 42161 3 []).2).execute_full_route
      { msg_sender := 4, block_timestamp := 11 } 2 60 42161 3 []).1 = .ok 2 := by
    rw [execute_success REInitial { msg_sender := 4, block_timestamp := 10 } 2 50 42161 3 []
      rfl rfl (by decide) (by decide) (by decide)]
    rw [execute_success _ { msg_sender := 4, block_timestamp := 11 } 2 60 42161 3 []
      rfl rfl (by decide) (by decide) (by decide)]
    norm_num [REInitial, U256MOD]
  refine ⟨hok1, ?_, ?_⟩
  · exact (C4_monotonic_intent_ids REInitial
      { msg_sender := 4, block_timestamp := 10 } { msg_sender := 4, block_timestamp := 11 }
      2 50 42161 3 2 60 42161 3 [] [] 1 2).2.1 hok1 hok2 (by norm_num [U256MOD])
  · exact (C4_monotonic_intent_ids REInitial
      { msg_sender := 4, block_timestamp := 10 } { msg_sender := 4, block_timestamp := 11 }
      2 0 42161 3 2 60 42161 3 [] [] 1 2).2.2 .InvalidAmount
      (by rw [execute_invalid_amount REInitial { msg_sender := 4, block_timestamp := 10 }
        2 0 42161 3 [] rfl rfl (by decide) rfl])

/-! ## Claim C9 -/

/-- Claim C9: while paused, every execute_full_route call fails with
ContractPaused and changes nothing; pause and unpause by a non-owner fail
with Unauthorized and change nothing; pause by the owner sets the paused flag
and unpause clears it, in both cases leaving the owner, the lock flag, the
intent counter and every intent status untouched. -/
theorem C9_pause_gate (s : RouteExecutor) (env : Env)
    (token_in amount destination_chain recipient : Nat) (swap_data : List Nat) :
    (s.paused = true →
      s.execute_full_route env token_in amount destination_chain recipient swap_data
        = (.error .ContractPaused, s))
    ∧ (env.msg_sender ≠ s.owner →
      s.pause env = (.error .Unauthorized, s) ∧ s.unpause env = (.error .Unauthorized, s))
    ∧ (env.msg_sender = s.owner →
      (s.pause env).1 = .ok () ∧ ((s.pause env).2).paused = true
      ∧ ((s.pause env).2).owner = s.owner ∧ ((s.pause env).2).locked = s.locked
      ∧ ((s.pause env).2).intent_counter = s.intent_counter
      ∧ (∀ id, ((s.pause env).2).intent_statuses id = s.intent_statuses id)
      ∧ (s.unpause env).1 = .ok () ∧ ((s.unpause env).2).paused = false
      ∧ ((s.unpause env).2).owner = s.owner ∧ ((s.unpause env).2).locked = s.locked
      ∧ ((s.unpause env).2).intent_counter = s.intent_counter
      ∧ (∀ id, ((s.unpause env).2).intent_statuses id = s.intent_statuses id)) := by
  refine ⟨?_, ?_, ?_⟩
  · intro hp
    exact execute_paused s env token_in amount destination_chain recipient swap_data hp
  · intro h
    constructor
    · simp only [RouteExecutor.pause]
      rw [if_pos h]
    · simp only [RouteExecutor.unpause]
      rw [if_pos h]
  · intro h
    have hp : s.pause env
        = (.ok (), { s with paused := true, log := s.log ++ [REEvent.PausedEvent env.msg_sender] }) := by
      simp only [RouteExecutor.pause]
      rw [if_neg (by simp [h])]
    have hu : s.unpause env
        = (.ok (), { s with paused := false, log := s.log ++ [REEvent.UnpausedEvent env.msg_sender] }) := by
      simp only [RouteExecutor.unpause]
      rw [if_neg (by simp [h])]
    rw [hp, hu]
    simp

/-- Witness for C9: a paused variant of the fresh executor rejects execution
with ContractPaused; a stranger cannot pause the fresh executor; the owner
(address 0 on the fresh state) can pause and the flag is then set with the
counter intact. -/
theorem C9_pause_gate_witness :
    ({ REInitial with paused := true } : RouteExecutor).execute_full_route
        { msg_sender := 4, block_timestamp := 10 } 2 50 42161 3 []
      = (.error .ContractPaused, { REInitial with paused := true })
    ∧ REInitial.pause { msg_sender := 4, block_timestamp := 10 }
      = (.error .Unauthorized, REInitial)
    ∧ ((REInitial.pause { msg_sender := 0, block_timestamp := 10 }).2).paused = true
    ∧ ((REInitial.pause { msg_sender := 0, block_timestamp := 10 }).2).intent_counter
      = REInitial.intent_counter := by
  refine ⟨?_, ?_, ?_, ?_⟩
  · exact (C9_pause_gate ({ REInitial with paused := true })
      { msg_sender := 4, block_timestamp := 10 } 2 50 42161 3 []).1 rfl
  · exact ((C9_pause_gate REInitial { msg_sender := 4, block_timestamp := 10 }
      2 50 42161 3 []).2.1 (by decide)).1
  · exact ((C9_pause_gate REInitial { msg_sender := 0, block_timestamp := 10 }
      2 50 42161 3 []).2.2 rfl).2.1
  · exact ((C9_pause_gate REInitial { msg_sender := 0, block_timestamp := 10 }
      2 50 42161 3 []).2.2 rfl).2.2.2.2.1

/-! ## Claim C10 -/

/-- A single RouteExecutor call leaves each stored intent status unchanged or
writes Executing or Completed: no public call ever stores the Failed code. -/
lemma reStep_statuses (s : RouteExecutor) (env : Env) (c : RECall) (id : Nat) :
    (reStep s env c).intent_statuses id = s.intent_statuses id
    ∨ (reStep s env c).intent_statuses id = IntentStatus.code IntentStatus.Executing
    ∨ (reStep s env c).intent_statuses id = IntentStatus.code IntentStatus.Completed := by
  cases c with
  | initCall v cc =>
      simp only [reStep, RouteExecutor.init]
      split <;> simp
  | pauseCall =>
      simp only [reStep, RouteExecutor.pause]
      split <;> simp
  | unpauseCall =>
      simp only [reStep, RouteExecutor.unpause]
      split <;> simp
  | executeCall t a d r sd =>
      simp only [reStep]
      cases hp : s.paused with
      | true => rw [execute_paused s env t a d r sd hp]; left; rfl
      | false =>
        cases hl : s.locked with
        | true => rw [execute_locked s env t a d r sd hp hl]; left; rfl
        | false =>
          by_cases ht : t = 0 ∨ r = 0
          · rw [execute_invalid_address s env t a d r sd hp hl ht]; left; rfl
          · by_cases ha : a = 0
            · rw [execute_invalid_amount s env t a d r sd hp hl ht ha]; left; rfl
            · push_neg at ht
              rw [execute_success s env t a d r sd hp hl ht.1 ht.2 ha]
              simp only [setMap]
              rcases eq_or_ne id ((s.intent_counter + 1) % U256MOD) with h | h
              · right; right; simp [h]
              · left; simp [h]

/-- Claim C10: in every state reachable by public calls from the freshly
deployed RouteExecutor, get_intent_status never returns the Failed code: the
only status codes ever stored are Executing and Completed (unknown ids read
as the zero Pending default), so the Failed member of the intent lifecycle is
unreachable in this code. -/
theorem C10_failed_status_unreachable (s : RouteExecutor) (h : REReachable s) (id : Nat) :
    s.get_intent_status id ≠ IntentStatus.code IntentStatus.Failed := by
  induction h with
  | base => simp [REInitial, RouteExecutor.get_intent_status, IntentStatus.code]
  | step s0 env c h0 ih =>
      rcases reStep_statuses s0 env c id with h1 | h1 | h1
      · simpa [RouteExecutor.get_intent_status, h1] using ih
      · simp [RouteExecutor.get_intent_status, h1, IntentStatus.code]
      · simp [RouteExecutor.get_intent_status, h1, IntentStatus.code]

/-- Witness for C10: after a successful route execution on the fresh executor,
intent 1 does not read as Failed. -/
theorem C10_failed_status_unreachable_witness :
    (reStep REInitial { msg_sender := 4, block_timestamp := 10 }
        (RECall.executeCall 2 50 42161 3 [])).get_intent_status 1
      ≠ IntentStatus.code IntentStatus.Failed :=
  C10_failed_status_unreachable _
    (REReachable.step REInitial { msg_sender := 4, block_timestamp := 10 }
      (RECall.executeCall 2 50 42161 3 []) REReachable.base) 1

/-! ## Claim C6 -/

/-- Claim C6: validate_intent short-circuits in exactly the order InvalidAmount,
InvalidAddress, UnsupportedChain, UnsupportedToken, InsufficientBalance,
InsufficientAllowance, returning the error of the first failing check and
true when all pass. -/
theorem C6_validate_intent_check_order (s : IntentValidator)
    (balanceOf : Nat → Nat → Nat) (allowanceOf : Nat → Nat → Nat → Nat)
    (user token amount destination_chain spender : Nat) :
    (amount = 0 →
      s.validate_intent balanceOf allowanceOf user token amount destination_chain spender
        = .error .InvalidAmount)
    ∧ (amount ≠ 0 → (user = 0 ∨ token = 0 ∨ spender = 0) →
      s.validate_intent balanceOf allowanceOf user token amount destination_chain spender
        = .error .InvalidAddress)
    ∧ (amount ≠ 0 → user ≠ 0 → token ≠ 0 → spender ≠ 0 →
      s.is_chain_supported destination_chain = false →
      s.validate_intent balanceOf allowanceOf user token amount destination_chain spender
        = .error .UnsupportedChain)
    ∧ (amount ≠ 0 → user ≠ 0 → token ≠ 0 → spender ≠ 0 →
      s.is_chain_supported destination_chain = true →
      s.is_token_supported token = false →
      s.validate_intent balanceOf allowanceOf user token amount destination_chain spender
        = .error .UnsupportedToken)
    ∧ (amount ≠ 0 → user ≠ 0 → token ≠ 0 → spender ≠ 0 →
      s.is_chain_supported destination_chain = true →
      s.is_token_supported token = true →
      balanceOf token user < amount →
      s.validate_intent balanceOf allowanceOf user token amount destination_chain spender
        = .error .InsufficientBalance)
    ∧ (amount ≠ 0 → user ≠ 0 → token ≠ 0 → spender ≠ 0 →
      s.is_chain_supported destination_chain = true →
      s.is_token_supported token = true →
      ¬ balanceOf token user < amount →
      allowanceOf token user spender < amount →
      s.validate_intent balanceOf allowanceOf user token amount destination_chain spender
        = .error .InsufficientAllowance)
    ∧ (amount ≠ 0 → user ≠ 0 → token ≠ 0 → spender ≠ 0 →
      s.is_chain_supported destination_chain = true →
      s.is_token_supported token = true →
      ¬ balanceOf token user < amount →
      ¬ allowanceOf token user spender < amount →
      s.validate_intent balanceOf allowanceOf user token amount destination_chain spender
        = .ok true) := by
  refine ⟨?_, ?_, ?_, ?_, ?_, ?_, ?_⟩
  · intro ha
    simp only [IntentValidator.validate_intent]
    rw [if_pos ha]
  · intro ha hadr
    simp only [IntentValidator.validate_intent]
    rw [if_neg ha, if_pos hadr]
  · intro ha hu htok hsp hc
    simp only [IntentValidator.validate_intent]
    rw [if_neg ha, if_neg (by simp [hu, htok, hsp]), if_pos (by simp [hc])]
  · intro ha hu htok hsp hc hT
    simp only [IntentValidator.validate_intent]
    rw [if_neg ha, if_neg (by simp [hu, htok, hsp]), if_neg (by simp [hc]),
      if_pos (by simp [hT])]
  · intro ha hu htok hsp hc hT hb
    simp only [IntentValidator.validate_intent]
    rw [if_neg ha, if_neg (by simp [hu, htok, hsp]), if_neg (by simp [hc]),
      if_neg (by simp [hT]), if_pos hb]
  · intro ha hu htok hsp hc hT hb hal
    simp only [IntentValidator.validate_intent]
    rw [if_neg ha, if_neg (by simp [hu, htok, hsp]), if_neg (by simp [hc]),
      if_neg (by simp [hT]), if_neg hb, if_pos hal]
  · intro ha hu htok hsp hc hT hb hal
    simp only [IntentValidator.validate_intent]
    rw [if_neg ha, if_neg (by simp [hu, htok, hsp]), if_neg (by simp [hc]),
      if_neg (by simp [hT]), if_neg hb, if_neg hal]

/-- Concrete IntentValidator used by the C6 and C7 witnesses: owner 1, chain
42161 and token 2 on the allow-lists. -/
def ivDemo : IntentValidator :=
  { owner := 1,
    supported_chains := fun c => c == 42161,
    supported_tokens := fun t => t == 2 }

/-- Balance oracle of the demo runs: user 7 holds 1000 of token 2. -/
def balDemo : Nat → Nat → Nat := fun t u => if t = 2 ∧ u = 7 then 1000 else 0

/-- Allowance oracle of the demo runs: user 7 approved 500 to spender 9 on token 2. -/
def alwDemo : Nat → Nat → Nat → Nat := fun t u sp => if t = 2 ∧ u = 7 ∧ sp = 9 then 500 else 0

/-- Witness for C6: on the demo validator, a zero amount gives InvalidAmount, an
unsupported chain gives UnsupportedChain, an amount above the 500
allowance but within the 1000 balance gives InsufficientAllowance, and a
fully valid intent of 400 returns true. -/
theorem C6_validate_intent_check_order_witness :
    ivDemo.validate_intent balDemo alwDemo 7 2 0 42161 9 = .error .InvalidAmount
    ∧ ivDemo.validate_intent balDemo alwDemo 7 2 400 1 9 = .error .UnsupportedChain
    ∧ ivDemo.validate_intent balDemo alwDemo 7 2 800 42161 9 = .error .InsufficientAllowance
    ∧ ivDemo.validate_intent balDemo alwDemo 7 2 400 42161 9 = .ok true := by
  have h0 := C6_validate_intent_check_order ivDemo balDemo alwDemo 7 2 0 42161 9
  have h1 := C6_validate_intent_check_order ivDemo balDemo alwDemo 7 2 400 1 9
  have h2 := C6_validate_intent_check_order ivDemo balDemo alwDemo 7 2 800 42161 9
  have h3 := C6_validate_intent_check_order ivDemo balDemo alwDemo 7 2 400 42161 9
  refine ⟨h0.1 rfl, ?_, ?_, ?_⟩
  · exact h1.2.2.1 (by decide) (by decide) (by decide) (by decide) (by decide)
  · exact h2.2.2.2.2.2.1 (by decide) (by decide) (by decide) (by decide)
      (by decide) (by decide) (by decide) (by decide)
  · exact h3.2.2.2.2.2.2 (by decide) (by decide) (by decide) (by decide)
      (by decide) (by decide) (by decide) (by decide)

/-! ## Claim C7 -/

/-- Claim C7 (counterexample): SettlementVerifier.init called with a null route
executor address fails with Unauthorized, not with InvalidAddress as the
claim states; indeed the SettlementVerifierError enumeration of
settlement_verifier.rs has no InvalidAddress variant at all, so no call of
this contract can fail with InvalidAddress. The state is unchanged, as the
claim says. -/
theorem C7_sv_init_unauthorized_counterexample :
    SVInitial.init { msg_sender := 1, block_timestamp := 0 } 0 5
      = (.error SettlementVerifierError.Unauthorized, SVInitial) := by
  simp only [SettlementVerifier.init]
  rw [if_pos (by decide)]

/-- Claim C7 (amended): null-principal inputs are rejected with no state change:
validate_intent fails with InvalidAddress when user, token or spender is null
(and the amount is non-zero, the earlier check); execute_full_route fails
with InvalidAddress when token_in or recipient is null (on an unpaused,
unlocked executor); RouteExecutor.init fails with InvalidAddress when either
address is null; but SettlementVerifier.init rejects null addresses with
Unauthorized, its error type having no InvalidAddress variant. -/
theorem C7_null_principal_rejected (sIV : IntentValidator)
    (balanceOf : Nat → Nat → Nat) (allowanceOf : Nat → Nat → Nat → Nat)
    (sRE : RouteExecutor) (sSV : SettlementVerifier) (env : Env)
    (user token amount destination_chain spender : Nat)
    (token_in recipient : Nat) (swap_data : List Nat)
    (va ca ra ba : Nat)
    (hIV : user = 0 ∨ token = 0 ∨ spender = 0) (hamt : amount ≠ 0)
    (hRE : token_in = 0 ∨ recipient = 0) (hp : sRE.paused = false) (hl : sRE.locked = false)
    (hREinit : va = 0 ∨ ca = 0) (hSVinit : ra = 0 ∨ ba = 0) :
    sIV.validate_intent balanceOf allowanceOf user token amount destination_chain spender
      = .error .InvalidAddress
    ∧ sRE.execute_full_route env token_in amount destination_chain recipient swap_data
      = (.error .InvalidAddress, sRE)
    ∧ sRE.init env va ca = (.error .InvalidAddress, sRE)
    ∧ sSV.init env ra ba = (.error SettlementVerifierError.Unauthorized, sSV) := by
  refine ⟨?_, ?_, ?_, ?_⟩
  · simp only [IntentValidator.validate_intent]
    rw [if_neg hamt, if_pos hIV]
  · exact execute_invalid_address sRE env token_in amount destination_chain recipient
      swap_data hp hl hRE
  · simp only [RouteExecutor.init]
    rw [if_pos hREinit]
  · simp only [SettlementVerifier.init]
    rw [if_pos hSVinit]

/-- Witness for C7: concrete null-principal rejections on the demo validator,
the fresh executor and the fresh verifier. -/
theorem C7_null_principal_rejected_witness :
    ivDemo.validate_intent balDemo alwDemo 0 2 400 42161 9 = .error .InvalidAddress
    ∧ REInitial.execute_full_route { msg_sender := 4, block_timestamp := 10 } 0 400 42161 3 []
      = (.error .InvalidAddress, REInitial)
    ∧ REInitial.init { msg_sender := 4, block_timestamp := 10 } 0 3
      = (.error .InvalidAddress, REInitial)
    ∧ SVInitial.init { msg_sender := 4, block_timestamp := 10 } 2 0
      = (.error SettlementVerifierError.Unauthorized, SVInitial) :=
  C7_null_principal_rejected ivDemo balDemo alwDemo REInitial SVInitial
    { msg_sender := 4, block_timestamp := 10 } 0 2 400 42161 9 0 3 [] 0 3 2 0
    (by decide) (by decide) (by decide) rfl rfl (by decide) (by decide)

end Swoosh
